import Mathlib

/-!
Verification of the Flask + MongoDB document-store service (`src/app.py`).

The app exposes:
  * `GET /`      → greeting text with the current server time (line 17-19)
  * `GET /data`  → all stored documents, `_id` projected away, as a JSON array (line 30-32)
  * `POST /data` → parse the body as JSON and `insert_one` it (line 25-28)

We embed the handlers as pure functions.  External effects (the fresh
ObjectId generated by `insert_one`, the clock read by `datetime.now()`)
are passed as explicit parameters; the MongoDB collection is a list of
stored documents (field lists), in insertion order.
-/

namespace FlaskMongo

/-- JSON values, as produced by `request.get_json()`.  Numbers are
modelled as integers (no claim depends on non-integral numerics). -/
inductive Json where
  | null
  | bool (b : Bool)
  | num (n : Int)
  | str (s : String)
  | arr (elems : List Json)
  | obj (fields : List (String × Json))

/-- A stored document: the field list of a JSON object (MongoDB stores
the fields of the inserted mapping, in order). -/
abbrev Doc := List (String × Json)

/-- The collection `db.data` (line 13): documents in insertion order. -/
abbrev Coll := List Doc

/-- Whether a document carries the internal identity field `_id`. -/
def hasId (d : Doc) : Bool :=
  d.any (fun p => p.1 == "_id")

/-- MongoDB projection `{"_id": 0}` (line 31): drop every `_id` field,
keep all other fields in stored order. -/
def stripId (d : Doc) : Doc :=
  d.filter (fun p => p.1 != "_id")

/-- `collection.insert_one(data)` (line 27): the stored document is the
client mapping itself; if it lacks an `_id` field the driver assigns a
fresh identity value under `_id`. -/
def insertOne (d : Doc) (fresh : Json) : Doc :=
  if hasId d then d else d ++ [("_id", fresh)]

/-- A response body: either plain text (the greeting route returns an
f-string, line 19) or a JSON value produced by `jsonify` (lines 28, 32). -/
inductive RespBody where
  | text (s : String)
  | jsonVal (v : Json)

/-- An HTTP response: status code plus body.  `body = none` stands for a
framework-generated error page (400 Bad Request, 405 Method Not Allowed,
500 Internal Server Error), whose exact text `app.py` does not control. -/
structure Response where
  status : Nat
  body : Option RespBody

/-- Outcome of `request.get_json()` (line 26) on the raw request body:
`notJson` when the body is not parseable as JSON (Flask raises a 4xx
`BadRequest` / `UnsupportedMediaType` before the handler proceeds),
`json v` when it parses to the JSON value `v`. -/
inductive RawBody where
  | notJson
  | json (v : Json)

inductive Method where
  | get
  | post

structure Request where
  method : Method
  path : String
  body : RawBody

/-- `POST` branch of `data()` (lines 25-28).  `request.get_json()` either
aborts with a 4xx (unparseable body) or yields a JSON value; pymongo's
`insert_one` accepts only a mapping and raises `TypeError` on any other
value, which Flask surfaces as a 500 with no insertion performed. -/
def postData (st : Coll) (body : RawBody) (fresh : Json) : Coll × Response :=
  match body with
  | .notJson => (st, ⟨400, none⟩)
  | .json (.obj d) =>
      (st ++ [insertOne d fresh],
       ⟨201, some (.jsonVal (.obj [("status", .str "Data inserted")]))⟩)
  | .json _ => (st, ⟨500, none⟩)

/-- `GET` branch of `data()` (lines 30-32): materialize
`list(collection.find({}, {"_id": 0}))` and `jsonify` it with status 200. -/
def getData (st : Coll) : Response :=
  ⟨200, some (.jsonVal (.arr (st.map (fun d => Json.obj (stripId d)))))⟩

/-- `index()` (lines 17-19): the f-string greeting with the value of
`datetime.now()` interpolated at response time; Flask wraps a returned
string as a 200 text response. -/
def index (now : String) : Response :=
  ⟨200, some (.text ("Welcome to the Flask app! The current time is: " ++ now))⟩

/-- Route dispatch (decorators on lines 17 and 23): `/` accepts only GET
(Flask's default), `/data` accepts GET and POST, anything else is a 404.
Returns the collection after the request together with the response. -/
def handle (st : Coll) (req : Request) (fresh : Json) (now : String) :
    Coll × Response :=
  if req.path = "/" then
    match req.method with
    | .get => (st, index now)
    | .post => (st, ⟨405, none⟩)
  else if req.path = "/data" then
    match req.method with
    | .post => postData st req.body fresh
    | .get => (st, getData st)
  else (st, ⟨404, none⟩)

/-- Line 10: `os.environ.get("MONGODB_URI", "mongodb://localhost:27017/")`,
evaluated once at module load.  `env` is the process environment. -/
def mongo_uri (env : String → Option String) : String :=
  (env "MONGODB_URI").getD "mongodb://localhost:27017/"

/-- Process startup (lines 10-13): the connection configuration computed
once at module load; every request is then handled against this fixed
configuration (there is no other read of the environment in `app.py`). -/
structure AppConfig where
  uri : String

def startup (env : String → Option String) : AppConfig :=
  ⟨mongo_uri env⟩

/-! ## Helper lemmas -/

/-- Stripping `_id` leaves no `_id` field behind. -/
theorem hasId_stripId (d : Doc) : hasId (stripId d) = false := by
  simp only [hasId, stripId, List.any_eq_false]
  intro p hp
  have h := (List.mem_filter.mp hp).2
  simpa using h

/-- The `_id` the driver assigns is invisible through the projection:
a stored document reads back as the client document minus `_id`. -/
theorem stripId_insertOne (d : Doc) (fresh : Json) :
    stripId (insertOne d fresh) = stripId d := by
  unfold insertOne
  by_cases h : hasId d
  · simp [h]
  · simp [h, stripId, List.filter_append]

/-- A document with no `_id` field is unchanged by the projection. -/
theorem stripId_of_not_hasId (d : Doc) (h : hasId d = false) : stripId d = d := by
  simp only [hasId, List.any_eq_false] at h
  simp only [stripId]
  exact List.filter_eq_self.mpr (fun p hp => by simpa using h p hp)

/-! ## Claim theorems -/

/-- C1: for every valid JSON object `D` (field list `d`), POSTing `D` to
`/data` and then GETting `/data` yields a 200 JSON-array response whose
elements contain a document structurally equal to `D` with any identity
field removed. -/
theorem c1_post_then_get_contains (st : Coll) (d : Doc) (fresh fresh' : Json)
    (now now' : String) :
    ∃ elems : List Json,
      (handle ((handle st ⟨.post, "/data", .json (.obj d)⟩ fresh now).1)
          ⟨.get, "/data", .notJson⟩ fresh' now').2 =
        ⟨200, some (.jsonVal (.arr elems))⟩ ∧
      Json.obj (stripId d) ∈ elems := by
  refine ⟨(st ++ [insertOne d fresh]).map (fun e => Json.obj (stripId e)), rfl, ?_⟩
  refine List.mem_map.mpr ⟨insertOne d fresh, ?_, ?_⟩
  · simp
  · rw [stripId_insertOne]

/-- C2: a POST `/data` whose body is not parseable as JSON receives a 4xx
response (Flask's `get_json` aborts the request) and leaves the collection
unchanged. -/
theorem c2_invalid_body_4xx_no_insert (st : Coll) (fresh : Json) (now : String) :
    (handle st ⟨.post, "/data", .notJson⟩ fresh now).1 = st ∧
    400 ≤ (handle st ⟨.post, "/data", .notJson⟩ fresh now).2.status ∧
    (handle st ⟨.post, "/data", .notJson⟩ fresh now).2.status < 500 :=
  ⟨rfl, by show (400 : Nat) ≤ 400; decide, by show (400 : Nat) < 500; decide⟩

/-- C3: in every collection state, GET `/data` returns status 200 and a
JSON array holding one element per stored document (in order, hence each
exactly once), each the stored document with the `_id` field excluded. -/
theorem c3_get_data_materializes_all (st : Coll) (b : RawBody) (fresh : Json)
    (now : String) :
    (handle st ⟨.get, "/data", b⟩ fresh now).2 =
      ⟨200, some (.jsonVal (.arr (st.map (fun d => Json.obj (stripId d)))))⟩ ∧
    (st.map (fun d => Json.obj (stripId d))).length = st.length ∧
    ∀ d ∈ st, hasId (stripId d) = false := by
  exact ⟨rfl, List.length_map st _, fun d _ => hasId_stripId d⟩

/-- C4: a POST `/data` whose body parses to the JSON object with fields
`d` appends exactly that document to the collection (the driver only adds
the internal `_id`, leaving every client-supplied field intact) and
responds 201 with `{"status": "Data inserted"}`. -/
theorem c4_post_object_inserts_unmodified (st : Coll) (d : Doc) (fresh : Json)
    (now : String) :
    handle st ⟨.post, "/data", .json (.obj d)⟩ fresh now =
      (st ++ [insertOne d fresh],
       ⟨201, some (.jsonVal (.obj [("status", .str "Data inserted")]))⟩) ∧
    stripId (insertOne d fresh) = stripId d :=
  ⟨rfl, stripId_insertOne d fresh⟩

/-- C5: GET `/data` on the empty collection returns `[]` with status 200. -/
theorem c5_get_empty_returns_empty (b : RawBody) (fresh : Json) (now : String) :
    handle [] ⟨.get, "/data", b⟩ fresh now =
      ([], ⟨200, some (.jsonVal (.arr []))⟩) :=
  rfl

/-- C6 counterexample: POSTing the valid JSON array `[1]` (valid JSON but
not an object) yields status 500 — a server error, not the 4xx the claim
asserts. -/
theorem c6_counterexample_array_body_500 :
    (handle [] ⟨.post, "/data", .json (.arr [Json.num 1])⟩ .null "").2.status = 500 ∧
    ¬((handle [] ⟨.post, "/data", .json (.arr [Json.num 1])⟩ .null "").2.status < 500) :=
  ⟨rfl, by decide⟩

/-- C6 amended: a POST `/data` whose body is valid JSON but not a JSON
object is surfaced as a 500 server error (pymongo's `insert_one` raises
`TypeError` on non-mappings, unhandled by the app) and no document is
added. -/
theorem c6_amended_nonobject_500 (st : Coll) (v fresh : Json) (now : String)
    (h : ∀ d : Doc, v ≠ .obj d) :
    handle st ⟨.post, "/data", .json v⟩ fresh now = (st, ⟨500, none⟩) := by
  cases v with
  | obj d => exact absurd rfl (h d)
  | null => rfl
  | bool b => rfl
  | num n => rfl
  | str s => rfl
  | arr xs => rfl

/-- Witness for C6 amended at the concrete body `[]`. -/
theorem c6_amended_nonobject_500_witness :
    handle [] ⟨.post, "/data", .json (.arr [])⟩ .null "" = ([], ⟨500, none⟩) :=
  c6_amended_nonobject_500 [] (.arr []) .null ""
    (fun _ hd => Json.noConfusion hd)

/-- C7: from the empty collection, POSTing `{"a": 1}` then `{"b": 2}`
makes GET `/data` return exactly the two posted objects (2 elements). -/
theorem c7_two_posts_two_docs (f1 f2 f3 : Json) (n1 n2 n3 : String) :
    (handle
      ((handle
        ((handle [] ⟨.post, "/data", .json (.obj [("a", .num 1)])⟩ f1 n1).1)
        ⟨.post, "/data", .json (.obj [("b", .num 2)])⟩ f2 n2).1)
      ⟨.get, "/data", .notJson⟩ f3 n3).2 =
      ⟨200, some (.jsonVal (.arr
        [Json.obj [("a", .num 1)], Json.obj [("b", .num 2)]]))⟩ :=
  rfl

/-- C8: GET `/` returns status 200 with a text body consisting of the
literal greeting "Welcome to the Flask app! The current time is: "
followed by the server timestamp taken at response time, and leaves the
collection state unchanged. -/
theorem c8_index_greeting (st : Coll) (b : RawBody) (fresh : Json) (now : String) :
    handle st ⟨.get, "/", b⟩ fresh now =
      (st, ⟨200, some (.text
        ("Welcome to the Flask app! The current time is: " ++ now))⟩) :=
  rfl

/-- C9: the connection address is a function of the single environment
variable `MONGODB_URI` alone (any two environments agreeing on it yield
the same address, set or unset), the set value is used verbatim, the
address defaults to `mongodb://localhost:27017/` when the variable is
unset, and it is the one address the startup configuration carries for
the process lifetime. -/
theorem c9_mongo_uri_single_read_default (env env' : String → Option String)
    (hagree : env "MONGODB_URI" = env' "MONGODB_URI") :
    mongo_uri env = mongo_uri env' ∧
    (env "MONGODB_URI" = none → mongo_uri env = "mongodb://localhost:27017/") ∧
    (∀ x, env "MONGODB_URI" = some x → mongo_uri env = x) ∧
    (startup env).uri = mongo_uri env := by
  refine ⟨?_, ?_, ?_, rfl⟩
  · simp [mongo_uri, hagree]
  · intro h
    simp [mongo_uri, h]
  · intro x hx
    simp [mongo_uri, hx]

/-- Witness for C9 at a concrete unset environment and a concrete set
environment. -/
theorem c9_mongo_uri_single_read_default_witness :
    mongo_uri (fun _ => none) = "mongodb://localhost:27017/" ∧
    mongo_uri (fun _ => some "mongodb://db:27017/") = "mongodb://db:27017/" :=
  ⟨(c9_mongo_uri_single_read_default (fun _ => none) (fun _ => none) rfl).2.1 rfl,
   (c9_mongo_uri_single_read_default (fun _ => some "mongodb://db:27017/")
      (fun _ => some "mongodb://db:27017/") rfl).2.2.1 "mongodb://db:27017/" rfl⟩

/-- C10: GET `/data` is read-only — in every collection state it leaves
the stored collection unchanged. -/
theorem c10_get_data_readonly (st : Coll) (b : RawBody) (fresh : Json)
    (now : String) :
    (handle st ⟨.get, "/data", b⟩ fresh now).1 = st :=
  rfl

end FlaskMongo
